import Mathlib

/-!
Formal model of the Workout_App frontend source.

The JavaScript/JSX source is shallowly embedded into Lean:

* `src/static/src/services/api.js` — `fetchApi` and the URL construction,
  modelled over an explicit fetch outcome (network effects become a
  function argument; the request actually issued is returned as a trace).
* `src/unnamed/part_002` (workout planning service) —
  `createExerciseSequence`.
* `src/static/src/context/WorkoutContext.jsx` — `workoutReducer` and the
  `completeCurrentExercise` wrapper (the impure `new Date().toISOString()`
  becomes an explicit `now : String` argument).
* `src/static/src/components/feedback/FeedbackDisplay.jsx` — the query
  options passed to the data-fetching library by `ExerciseTracker`.

JavaScript numbers are modelled as `Int` (the program only adds and
compares small integers), absent/null fields as `Option`, and JS
truthiness of numbers/strings/objects by explicit helper functions.
-/

namespace WorkoutApp

/-! ### JavaScript value model

A minimal model of JSON/JS values: enough to represent parsed response
bodies, request bodies, and the truthiness / string coercions the source
relies on.  `undef` models JavaScript `undefined` (e.g. a missing object
property). -/

inductive JsVal where
  | null : JsVal
  | undef : JsVal
  | str : String → JsVal
  | num : Int → JsVal
  | boolean : Bool → JsVal
  | obj : List (String × JsVal) → JsVal
  | arr : List JsVal → JsVal

/-- JS truthiness: `null`, `undefined`, `false`, `0` and `""` are falsy;
objects and arrays are always truthy. -/
def JsVal.truthy : JsVal → Bool
  | .null => false
  | .undef => false
  | .str s => !s.isEmpty
  | .num n => n != 0
  | .boolean b => b
  | .obj _ => true
  | .arr _ => true

/-- `String(v)` coercion, as used by `new Error(v)` on a truthy `v`. -/
def JsVal.toStr : JsVal → String
  | .null => "null"
  | .undef => "undefined"
  | .str s => s
  | .num n => toString n
  | .boolean b => if b then "true" else "false"
  | .obj _ => "[object Object]"
  | .arr _ => ""

/-- Property access `v.k`: a lookup on objects, `undefined` otherwise
(the source only reads `errorData.error` on parsed JSON bodies). -/
def JsVal.getField (v : JsVal) (k : String) : JsVal :=
  match v with
  | .obj fields =>
    match fields.lookup k with
    | some w => w
    | none => .undef
  | _ => .undef

mutual

/-- `JSON.stringify` on the JS value model (string escaping is omitted:
the app only serialises plain identifier-like strings). -/
def JsVal.stringify : JsVal → String
  | .null => "null"
  | .undef => "null"
  | .str s => "\"" ++ s ++ "\""
  | .num n => toString n
  | .boolean b => if b then "true" else "false"
  | .obj fields => "\x7b" ++ stringifyFields fields ++ "\x7d"
  | .arr elems => "[" ++ stringifyElems elems ++ "]"

def stringifyFields : List (String × JsVal) → String
  | [] => ""
  | [(k, v)] => "\"" ++ k ++ "\":" ++ v.stringify
  | (k, v) :: rest => "\"" ++ k ++ "\":" ++ v.stringify ++ "," ++ stringifyFields rest

def stringifyElems : List JsVal → String
  | [] => ""
  | [v] => v.stringify
  | v :: rest => v.stringify ++ "," ++ stringifyElems rest

end

/-- JS `x || d` on an optional number: `undefined`, `null` and `0` are
falsy, so they yield the default. -/
def jsOrInt (x : Option Int) (d : Int) : Int :=
  match x with
  | some n => if n = 0 then d else n
  | none => d

/-- Whether `sub` occurs as a contiguous run inside `l`. -/
def listIncludes (l sub : List Char) : Bool :=
  match l with
  | [] => sub.isEmpty
  | c :: cs => sub.isPrefixOf (c :: cs) || listIncludes cs sub

/-- JS `s.includes(sub)` for strings (substring test). -/
def strIncludes (s sub : String) : Bool :=
  listIncludes s.data sub.data

/-! ### Exercise data model

`createExerciseSequence` (workout planning service, `src/unnamed/part_002`)
consumes a workout-plan day, a JS object with an `exercises` array.  Each
source exercise has a `name`, optional numeric `sets` and `reps`, and an
optional boolean `is_timed` (its JS truthiness is the `Bool` here). -/

structure Exercise where
  name : String
  sets : Option Int := none
  reps : Option Int := none
  is_timed : Bool := false
deriving DecidableEq, Repr

/-- A workout-plan day.  `exercises = none` models the JS cases where the
`exercises` property is missing, falsy, or not an array. -/
structure WorkoutDay where
  exercises : Option (List Exercise) := none
deriving DecidableEq, Repr

/-- Per-exercise completion statistics (`stats` payload of
`COMPLETE_EXERCISE`); the reducer reads only `repCount` and `duration`. -/
structure Stats where
  repCount : Option Int := none
  duration : Option Int := none
deriving DecidableEq, Repr

/-- An element of the exercise sequence, as produced by
`createExerciseSequence` and later updated by the reducer (which adds
`results` and flips `completed`). -/
structure SeqItem where
  id : String
  name : String
  sets : Int
  reps : Int
  is_timed : Bool
  target_duration : Option Int
  target_reps : Option Int
  completed : Bool
  results : Option Stats := none
deriving DecidableEq, Repr

/-- JS regex `\s`: the whitespace class used by `replace(/\s+/g, '_')`
(ASCII part; the app's exercise names are ASCII). -/
def jsWhitespace (c : Char) : Bool :=
  c = ' ' || c = '\t' || c = '\n' || c = '\r' || c = '\x0b' || c = '\x0c'

/-- `replace(/\s+/g, '_')` on a character list: every maximal run of
whitespace becomes a single underscore.  The boolean tracks whether the
previous character was whitespace, so an underscore is emitted only at
the start of each run. -/
def replaceWsAux : Bool → List Char → List Char
  | _, [] => []
  | prevWs, c :: cs =>
    if jsWhitespace c then
      if prevWs then replaceWsAux true cs else '_' :: replaceWsAux true cs
    else
      c :: replaceWsAux false cs

/-- `replace(/\s+/g, '_')` on a character list. -/
def replaceWsRuns (l : List Char) : List Char :=
  replaceWsAux false l

/-- `name.toLowerCase().replace(/\s+/g, '_')` (ASCII lowercasing,
character by character). -/
def slugify (name : String) : String :=
  String.mk (replaceWsRuns (name.data.map Char.toLower))

/-- `createExerciseSequence(workoutDay)` from the workout planning
service: `[]` when the day is null or has no exercises array, otherwise a
map over the exercises.  Note `sets`/`reps` use the JS `||` defaults while
`target_duration`/`target_reps` use the raw `exercise.reps`. -/
def createExerciseSequence (workoutDay : Option WorkoutDay) : List SeqItem :=
  match workoutDay with
  | none => []
  | some day =>
    match day.exercises with
    | none => []
    | some exercises =>
      exercises.map fun exercise =>
        { id := slugify exercise.name
          name := exercise.name
          sets := jsOrInt exercise.sets 1
          reps := jsOrInt exercise.reps 10
          is_timed := exercise.is_timed
          target_duration := if exercise.is_timed then exercise.reps else none
          target_reps := if !exercise.is_timed then exercise.reps else none
          completed := false }

/-! ### Workout context state and reducer

From `src/static/src/context/WorkoutContext.jsx`.  Payloads the reducer
never inspects (the workout plan, error values, the session summary, the
`feedback` object) are modelled with simple carrier types. -/

/-- A workout plan as stored in `currentWorkout`; the reducer treats it
as an unexamined payload. -/
structure WorkoutPlan where
  planData : String
deriving DecidableEq, Repr

/-- `sessionStats`: `endTime` and `summary` do not exist on the initial
object and are added by `END_SESSION`, hence `Option`. -/
structure SessionStats where
  completedExercises : Int
  totalReps : Int
  totalDuration : Int
  feedback : List (String × Int)
  endTime : Option String := none
  summary : Option String := none
deriving DecidableEq, Repr

/-- `UPDATE_SESSION_STATS` spreads an arbitrary partial stats object over
`sessionStats`; this models the fields such a payload may carry. -/
structure StatsPatch where
  completedExercises : Option Int := none
  totalReps : Option Int := none
  totalDuration : Option Int := none
  feedback : Option (List (String × Int)) := none
deriving DecidableEq, Repr

/-- The reducer's state shape (`initialState` lists the same fields). -/
structure WorkoutState where
  currentWorkout : Option WorkoutPlan
  exerciseSequence : List SeqItem
  currentExerciseIndex : Int
  activeExercise : Option SeqItem
  sessionStartTime : Option String
  sessionStats : SessionStats
  isLoading : Bool
  error : Option String
deriving DecidableEq, Repr

/-- `initialState` from `WorkoutContext.jsx`. -/
def initialState : WorkoutState :=
  { currentWorkout := none
    exerciseSequence := []
    currentExerciseIndex := -1
    activeExercise := none
    sessionStartTime := none
    sessionStats :=
      { completedExercises := 0, totalReps := 0, totalDuration := 0, feedback := [] }
    isLoading := false
    error := none }

/-- Reducer actions.  One constructor per member of `ActionTypes`;
`unknownAction` stands for a dispatch with any other `type` string
(the reducer's `default` branch). -/
inductive WorkoutAction where
  | setCurrentWorkout (payload : Option WorkoutPlan)
  | setExerciseSequence (payload : List SeqItem)
  | setCurrentExercise (payload : Int)
  | completeExercise (exerciseIndex : Int) (stats : Stats)
  | startSession
  | endSession (payload : Option String)
  | updateSessionStats (payload : StatsPatch)
  | setLoading (payload : Bool)
  | setError (payload : Option String)
  | resetState
  | unknownAction (type : String)
deriving DecidableEq, Repr

/-- JS array indexing `l[i]` followed by `|| null`: `none` for a negative
or out-of-range index (sequence items are objects, hence truthy). -/
def seqGet (l : List SeqItem) (i : Int) : Option SeqItem :=
  if 0 ≤ i then l[i.toNat]? else none

/-- `workoutReducer(state, action)`.  `now` models the
`new Date().toISOString()` calls in `START_SESSION` / `END_SESSION`. -/
def workoutReducer (now : String) (state : WorkoutState) (action : WorkoutAction) :
    WorkoutState :=
  match action with
  | .setCurrentWorkout payload =>
    { state with currentWorkout := payload, error := none }
  | .setExerciseSequence payload =>
    { state with
      exerciseSequence := payload
      currentExerciseIndex := -1
      activeExercise := none }
  | .setCurrentExercise payload =>
    { state with
      currentExerciseIndex := payload
      activeExercise := seqGet state.exerciseSequence payload }
  | .completeExercise exerciseIndex stats =>
    let updatedSequence :=
      match seqGet state.exerciseSequence exerciseIndex with
      | some item =>
        state.exerciseSequence.set exerciseIndex.toNat
          { item with completed := true, results := some stats }
      | none => state.exerciseSequence
    { state with
      exerciseSequence := updatedSequence
      sessionStats :=
        { state.sessionStats with
          completedExercises := state.sessionStats.completedExercises + 1
          totalReps := state.sessionStats.totalReps + jsOrInt stats.repCount 0
          totalDuration := state.sessionStats.totalDuration + jsOrInt stats.duration 0 } }
  | .startSession =>
    { state with
      sessionStartTime := some now
      sessionStats :=
        { completedExercises := 0, totalReps := 0, totalDuration := 0, feedback := [] } }
  | .endSession payload =>
    { state with
      activeExercise := none
      sessionStats :=
        { state.sessionStats with endTime := some now, summary := payload } }
  | .updateSessionStats payload =>
    { state with
      sessionStats :=
        { completedExercises :=
            payload.completedExercises.getD state.sessionStats.completedExercises
          totalReps := payload.totalReps.getD state.sessionStats.totalReps
          totalDuration := payload.totalDuration.getD state.sessionStats.totalDuration
          feedback := payload.feedback.getD state.sessionStats.feedback
          endTime := state.sessionStats.endTime
          summary := state.sessionStats.summary } }
  | .setLoading payload =>
    { state with isLoading := payload }
  | .setError payload =>
    { state with error := payload, isLoading := false }
  | .resetState => initialState
  | .unknownAction _ => state

/-- `completeCurrentExercise(stats)` from the provider: dispatches
`COMPLETE_EXERCISE` at `currentExerciseIndex` only when that index is at
least 0 (there is no upper-bound guard). -/
def completeCurrentExercise (now : String) (state : WorkoutState) (stats : Stats) :
    WorkoutState :=
  if 0 ≤ state.currentExerciseIndex then
    workoutReducer now state (.completeExercise state.currentExerciseIndex stats)
  else
    state

/-! ### API client (`src/static/src/services/api.js`)

`fetchApi` is embedded over an explicit `fetchImpl : String → FetchConfig
→ FetchOutcome` standing for the browser `fetch`; besides its result the
embedding returns the list of `(url, config)` requests actually issued,
so that "exactly one request per call" is a provable statement. -/

/-- `API_BASE_URL = process.env.REACT_APP_API_URL || '/api'` under the
default configuration (`REACT_APP_API_URL` unset). -/
def API_BASE_URL : String := "/api"

/-- The caller-supplied `options` object (the fields `fetchApi` reads or
forwards; `method` is what the `get`/`post`/… wrappers set). -/
structure FetchOptions where
  method : Option String := none
  headers : List (String × String) := []
  body : Option JsVal := none

/-- The `config` object passed to `fetch`: options with merged headers
and a possibly stringified body. -/
structure FetchConfig where
  method : Option String
  headers : List (String × String)
  body : Option JsVal

/-- Object spread `{...base, ...overrides}` restricted to string maps
(headers): overriding keys win, and lookups see the merged map. -/
def spreadHeaders (base overrides : List (String × String)) :
    List (String × String) :=
  base.filter (fun kv => overrides.all fun kv2 => kv2.1 ≠ kv.1) ++ overrides

/-- The response object a resolved `fetch` yields, restricted to the
members `fetchApi` reads.  `jsonResult` is the outcome of
`response.json()` (`Except.error` = the body is not valid JSON, i.e. the
promise rejects); `contentLength` / `contentType` are
`headers.get(...)`, which returns null for a missing header. -/
structure FetchResponse where
  ok : Bool
  status : Int
  statusText : String
  jsonResult : Except Unit JsVal
  contentLength : Option String := none
  contentType : Option String := none
  textBody : String := ""

/-- A JS error value as thrown/annotated by `fetchApi`: an `Error` plus
the expando properties the source attaches. -/
structure JsError where
  message : String
  status : Option Int := none
  statusText : Option String := none
  data : Option JsVal := none
  endpoint : Option String := none
  request : Option (String × FetchConfig) := none

/-- The outcome of awaiting `fetch(url, config)`: a response, or a
rejection carrying an error value. -/
inductive FetchOutcome where
  | success (response : FetchResponse)
  | reject (error : JsError)

/-- `endpoint.startsWith('/')`: whether the first character is a slash. -/
def startsWithSlash (s : String) : Bool :=
  match s.data with
  | c :: _ => c = '/'
  | [] => false

/-- URL construction in `fetchApi`:
`` `${API_BASE_URL}${endpoint.startsWith('/') ? endpoint : `/${endpoint}`}` ``. -/
def requestUrl (endpoint : String) : String :=
  API_BASE_URL ++ (if startsWithSlash endpoint then endpoint else "/" ++ endpoint)

/-- Header merging in `fetchApi`: `{'Content-Type': 'application/json',
...options.headers}`. -/
def mergedHeaders (options : FetchOptions) : List (String × String) :=
  spreadHeaders [("Content-Type", "application/json")] options.headers

/-- Body processing: `if (options.body && typeof options.body ===
'object') config.body = JSON.stringify(options.body)` — objects and
arrays are stringified, primitives pass through (null is falsy). -/
def processBody (body : Option JsVal) : Option JsVal :=
  match body with
  | some (.obj fields) => some (.str (JsVal.stringify (.obj fields)))
  | some (.arr elems) => some (.str (JsVal.stringify (.arr elems)))
  | other => other

/-- The `config` object built by `fetchApi` before calling `fetch`. -/
def buildConfig (options : FetchOptions) : FetchConfig :=
  { method := options.method
    headers := mergedHeaders options
    body := processBody options.body }

/-- The catch block: `error.endpoint = endpoint; error.request = { url,
...config }` before rethrowing. -/
def annotateError (e : JsError) (endpoint url : String) (config : FetchConfig) :
    JsError :=
  { e with endpoint := some endpoint, request := some (url, config) }

/-- `errorData` for a non-ok response: the parsed JSON body, or
`{ error: response.statusText }` when the body is not valid JSON. -/
def errorDataOf (response : FetchResponse) : JsVal :=
  match response.jsonResult with
  | .ok v => v
  | .error _ => .obj [("error", .str response.statusText)]

/-- `new Error(errorData.error || 'API request failed')`: the message is
the `error` field's string coercion when truthy, else the fallback. -/
def errorMessage (errorData : JsVal) : String :=
  let e := errorData.getField "error"
  if e.truthy then e.toStr else "API request failed"

/-- The detailed error object built for a non-ok response (before the
catch block annotates it). -/
def httpError (response : FetchResponse) : JsError :=
  let errorData := errorDataOf response
  { message := errorMessage errorData
    status := some response.status
    statusText := some response.statusText
    data := some errorData }

/-- Values `fetchApi` resolves with: `null` (204 / empty body), a parsed
JSON value, or the raw body text. -/
inductive ApiResult where
  | nullResult
  | jsonResult (v : JsVal)
  | textResult (s : String)

/-- `fetchApi(endpoint, options)`.  Returns the settled promise
(`Except.error` = the annotated thrown error) together with the list of
requests issued to `fetchImpl`.  The body follows `api.js` line by line:
build url/config, fetch once, branch on `response.ok`, then on
204/content-length, then on content-type. -/
def fetchApi (fetchImpl : String → FetchConfig → FetchOutcome)
    (endpoint : String) (options : FetchOptions := {}) :
    Except JsError ApiResult × List (String × FetchConfig) :=
  let url := requestUrl endpoint
  let config := buildConfig options
  let trace := [(url, config)]
  match fetchImpl url config with
  | .reject error =>
    (.error (annotateError error endpoint url config), trace)
  | .success response =>
    if !response.ok then
      (.error (annotateError (httpError response) endpoint url config), trace)
    else if response.status = 204 ∨ response.contentLength = some "0" then
      (.ok .nullResult, trace)
    else if (match response.contentType with
             | some ct => strIncludes ct "application/json"
             | none => false) then
      match response.jsonResult with
      | .ok v => (.ok (.jsonResult v), trace)
      | .error _ =>
        -- `await response.json()` rejecting inside the try block is also
        -- caught and annotated before being rethrown.
        (.error (annotateError { message := "Unexpected end of JSON input" }
          endpoint url config), trace)
    else
      (.ok (.textResult response.textBody), trace)

/-! ### Service endpoints

The video service (`src/unnamed/part_001`) and exercise service
(`src/unnamed/part_003`) call the `get`/`post` wrappers — hence
`fetchApi` — with these endpoint strings. -/

/-- Endpoints of the video-service functions that go through `fetchApi`
(`startVideoFeed`, `stopVideoFeed`, `getVideoStatus`, `getCurrentFrame`). -/
def videoServiceEndpoints : List String :=
  ["video/start", "video/stop", "video/status", "video/frame"]

/-- `getVideoFeedUrl()` returns this URL directly (it bypasses
`fetchApi`). -/
def getVideoFeedUrl : String := "/api/video/feed"

/-- The query string `getCommonFeedback(params)` builds via
`URLSearchParams`: the optional `exercise` and `period` params, appended
in that order (URL-encoding omitted; the app passes plain words). -/
def commonFeedbackQuery (exercise period : Option String) : String :=
  let pairs :=
    (match exercise with | some e => [("exercise", e)] | none => []) ++
    (match period with | some p => [("period", p)] | none => [])
  String.intercalate "&" (pairs.map fun kv => kv.1 ++ "=" ++ kv.2)

/-- `getCommonFeedback(params)`: the query string is attached with `?`
when non-empty. -/
def getCommonFeedbackEndpoint (exercise period : Option String) : String :=
  "exercise/common_feedback" ++
    (if (commonFeedbackQuery exercise period).isEmpty then ""
     else "?" ++ commonFeedbackQuery exercise period)

/-- Endpoints of the fixed-string exercise-service functions
(`startExercise`, `stopExercise`, `getExerciseData`, `getExerciseStats`,
`getExerciseHistory`). -/
def exerciseServiceEndpoints : List String :=
  ["exercise/start", "exercise/stop", "exercise/data", "exercise/stats",
   "exercise/history"]

/-! ### Exercise-data polling (`FeedbackDisplay.jsx`, `ExerciseTracker`)

The component hands the data-fetching library a query options object with
`enabled: exerciseActive` and `refetchInterval: 500`. -/

/-- The query options the source passes to `useQuery` (the fields
relevant to scheduling). -/
structure QueryOptions where
  enabled : Bool
  refetchInterval : Int
deriving DecidableEq, Repr

/-- The options object built in `ExerciseTracker` for the
`getExerciseData` query. -/
def exerciseDataQueryOptions (exerciseActive : Bool) : QueryOptions :=
  { enabled := exerciseActive, refetchInterval := 500 }

/-- Modelled from the library's documented `refetchInterval` semantics
(the data-fetching library itself is an external dependency): an enabled
query with `refetchInterval = n > 0` refetches exactly at the multiples
of `n` milliseconds; a disabled query never fetches. -/
def pollsAt (opts : QueryOptions) (t : Nat) : Bool :=
  opts.enabled && 0 < opts.refetchInterval && t % opts.refetchInterval.toNat = 0

/-! ### Concrete fixtures

Small concrete values used by the witness theorems. -/

/-- A concrete two-exercise workout day used by the C2 witness. -/
def sampleDay : WorkoutDay where
  exercises := some
    [{ name := "Bicep Curl", sets := some 3, reps := some 12 },
     { name := "Plank", is_timed := true }]

/-- A concrete one-exercise workout day (timed plank with reps) used by
the amended-C9 witness. -/
def timedPlankDay : WorkoutDay where
  exercises := some [{ name := "Plank", reps := some 60, is_timed := true }]

/-- A concrete workout state with a two-item exercise sequence. -/
def sampleState : WorkoutState where
  currentWorkout := none
  exerciseSequence :=
    [{ id := "squat", name := "Squat", sets := 3, reps := 10, is_timed := false,
       target_duration := none, target_reps := some 10, completed := false },
     { id := "plank", name := "Plank", sets := 1, reps := 60, is_timed := true,
       target_duration := some 60, target_reps := none, completed := false }]
  currentExerciseIndex := 1
  activeExercise := none
  sessionStartTime := some "t0"
  sessionStats :=
    { completedExercises := 0, totalReps := 0, totalDuration := 0, feedback := [] }
  isLoading := false
  error := none

/-- A concrete workout state whose `currentExerciseIndex` (2) is at the
sequence length, as `completeCurrentExercise` permits. -/
def overflowState : WorkoutState where
  currentWorkout := none
  exerciseSequence :=
    [{ id := "squat", name := "Squat", sets := 3, reps := 10, is_timed := false,
       target_duration := none, target_reps := some 10, completed := true,
       results := some { repCount := some 10 } },
     { id := "plank", name := "Plank", sets := 1, reps := 60, is_timed := true,
       target_duration := some 60, target_reps := none, completed := true,
       results := some { duration := some 60 } }]
  currentExerciseIndex := 2
  activeExercise := none
  sessionStartTime := some "t0"
  sessionStats :=
    { completedExercises := 2, totalReps := 10, totalDuration := 60, feedback := [] }
  isLoading := false
  error := none

/-- A concrete failed HTTP response with a JSON error body. -/
def badResponse : FetchResponse where
  ok := false
  status := 404
  statusText := "Not Found"
  jsonResult := .ok (.obj [("error", .str "exercise not found")])

/-- A concrete failed HTTP response whose JSON body has an empty-string
`error` field (present but falsy). -/
def emptyErrorResponse : FetchResponse where
  ok := false
  status := 400
  statusText := "Bad Request"
  jsonResult := .ok (.obj [("error", .str "")])

/-- A concrete successful JSON response. -/
def jsonResponse : FetchResponse where
  ok := true
  status := 200
  statusText := "OK"
  jsonResult := .ok (.obj [("success", .boolean true)])
  contentType := some "application/json; charset=utf-8"
  textBody := "raw"

/-! ## Theorems -/

/-- `x || 0` on an optional number coincides with `Option.getD 0`. -/
theorem jsOrInt_eq_getD (x : Option Int) : jsOrInt x 0 = x.getD 0 := by
  rcases x with - | n
  · rfl
  · by_cases h : n = 0 <;> simp [jsOrInt, h]

/-- C2: `createExerciseSequence` returns `[]` when the day is null or its
`exercises` field is not an array; otherwise it returns a list of the same
length and order as the day's exercises, where each output item has
`completed = false`, `id` equal to the name lowercased with every
whitespace run replaced by `_`, `sets` defaulting to 1 and `reps`
defaulting to 10 (JS `||` defaults). -/
theorem createExerciseSequence_shape (workoutDay : Option WorkoutDay) :
    (workoutDay = none → createExerciseSequence workoutDay = []) ∧
    (∀ day : WorkoutDay, workoutDay = some day → day.exercises = none →
      createExerciseSequence workoutDay = []) ∧
    (∀ (day : WorkoutDay) (exercises : List Exercise),
      workoutDay = some day → day.exercises = some exercises →
      (createExerciseSequence workoutDay).length = exercises.length ∧
      ∀ (i : Nat) (exercise : Exercise), exercises[i]? = some exercise →
        ∃ item : SeqItem, (createExerciseSequence workoutDay)[i]? = some item ∧
          item.completed = false ∧
          item.id = slugify exercise.name ∧
          item.name = exercise.name ∧
          item.sets = jsOrInt exercise.sets 1 ∧
          item.reps = jsOrInt exercise.reps 10) := by
  refine ⟨fun h => by subst h; rfl, fun day h he => by subst h; simp [createExerciseSequence, he],
    fun day exercises h he => ?_⟩
  subst h
  simp only [createExerciseSequence, he]
  refine ⟨List.length_map _ _, fun i exercise hi => ?_⟩
  refine ⟨_, by rw [List.getElem?_map, hi]; rfl, rfl, rfl, rfl, rfl, rfl⟩

/-- Witness for C2 at a concrete two-exercise day. -/
theorem createExerciseSequence_shape_witness :
    ∃ item : SeqItem,
      (createExerciseSequence (some sampleDay))[1]? = some item ∧
      item.completed = false ∧
      item.id = slugify "Plank" ∧
      item.name = "Plank" ∧
      item.sets = jsOrInt none 1 ∧
      item.reps = jsOrInt none 10 :=
  ((createExerciseSequence_shape (some sampleDay)).2.2 sampleDay _ rfl rfl).2 1 _ rfl

/-- C9 as stated is false: for an exercise whose `reps` is absent,
`target_duration` and `target_reps` come from the raw `exercise.reps`, so
a timed exercise with no `reps` yields an item with both fields null —
not exactly one non-null. -/
theorem createExerciseSequence_exactlyOneTarget_false :
    ¬ ∀ (workoutDay : Option WorkoutDay) (item : SeqItem),
        item ∈ createExerciseSequence workoutDay →
        (item.target_duration ≠ none ∧ item.target_reps = none) ∨
        (item.target_duration = none ∧ item.target_reps ≠ none) := by
  intro h
  have hmem :
      ({ id := "plank", name := "Plank", sets := 1, reps := 10, is_timed := true,
         target_duration := none, target_reps := none, completed := false } : SeqItem) ∈
        createExerciseSequence
          (some { exercises := some [{ name := "Plank", is_timed := true }] }) := by
    decide
  rcases h _ _ hmem with ⟨h1, -⟩ | ⟨-, h2⟩
  · exact h1 rfl
  · exact h2 rfl

/-- C9, amended: each item's `target_duration` is the raw `reps` when
`is_timed`, else null, and `target_reps` is the raw `reps` when not
`is_timed`, else null; hence exactly one of the two is non-null whenever
the source exercise's `reps` is non-null. -/
theorem createExerciseSequence_targets (day : WorkoutDay)
    (exercises : List Exercise) (he : day.exercises = some exercises)
    (i : Nat) (exercise : Exercise) (hi : exercises[i]? = some exercise) :
    ∃ item : SeqItem, (createExerciseSequence (some day))[i]? = some item ∧
      item.target_duration = (if exercise.is_timed then exercise.reps else none) ∧
      item.target_reps = (if exercise.is_timed then none else exercise.reps) ∧
      (exercise.reps ≠ none →
        (item.target_duration ≠ none ∧ item.target_reps = none) ∨
        (item.target_duration = none ∧ item.target_reps ≠ none)) := by
  simp only [createExerciseSequence, he]
  refine ⟨_, by rw [List.getElem?_map, hi]; rfl, rfl, ?_, fun hr => ?_⟩
  · cases hit : exercise.is_timed <;> simp [hit]
  · cases hit : exercise.is_timed <;> simp [hit, hr]

/-- Witness for the amended C9 at a concrete timed exercise with reps. -/
theorem createExerciseSequence_targets_witness :
    ∃ item : SeqItem,
      (createExerciseSequence (some timedPlankDay))[0]? = some item ∧
      item.target_duration = (if true then some 60 else none) ∧
      item.target_reps = (if true then none else some 60) ∧
      ((some 60 : Option Int) ≠ none →
        (item.target_duration ≠ none ∧ item.target_reps = none) ∨
        (item.target_duration = none ∧ item.target_reps ≠ none)) :=
  createExerciseSequence_targets timedPlankDay _ rfl 0 _ rfl

/-- C3: each listed action type changes only its designated fields — the
structure-update equations pin every other field of the state to its old
value — and an action of unknown type returns the state unchanged. -/
theorem workoutReducer_frame (now : String) (state : WorkoutState)
    (w : Option WorkoutPlan) (seq : List SeqItem) (i : Int) (b : Bool)
    (e : Option String) (t : String) :
    workoutReducer now state (.setCurrentWorkout w) =
      { state with currentWorkout := w, error := none } ∧
    workoutReducer now state (.setExerciseSequence seq) =
      { state with exerciseSequence := seq, currentExerciseIndex := -1,
                   activeExercise := none } ∧
    workoutReducer now state (.setCurrentExercise i) =
      { state with currentExerciseIndex := i,
                   activeExercise := seqGet state.exerciseSequence i } ∧
    workoutReducer now state (.setLoading b) =
      { state with isLoading := b } ∧
    workoutReducer now state (.setError e) =
      { state with error := e, isLoading := false } ∧
    workoutReducer now state (.unknownAction t) = state :=
  ⟨rfl, rfl, rfl, rfl, rfl, rfl⟩

/-- C4: completing a valid index marks exactly that sequence item
completed with the action's stats as results, leaves every other item
unchanged, and bumps the session counters by 1 / `repCount` / `duration`
(0 when absent). -/
theorem workoutReducer_completeExercise (now : String) (state : WorkoutState)
    (i : Int) (stats : Stats) (h0 : 0 ≤ i)
    (hlt : i.toNat < state.exerciseSequence.length) :
    (workoutReducer now state (.completeExercise i stats)).exerciseSequence[i.toNat]? =
      some { state.exerciseSequence.get ⟨i.toNat, hlt⟩ with
             completed := true, results := some stats } ∧
    (∀ j : Nat, j ≠ i.toNat →
      (workoutReducer now state (.completeExercise i stats)).exerciseSequence[j]? =
        state.exerciseSequence[j]?) ∧
    (workoutReducer now state (.completeExercise i stats)).sessionStats.completedExercises =
      state.sessionStats.completedExercises + 1 ∧
    (workoutReducer now state (.completeExercise i stats)).sessionStats.totalReps =
      state.sessionStats.totalReps + (stats.repCount.getD 0) ∧
    (workoutReducer now state (.completeExercise i stats)).sessionStats.totalDuration =
      state.sessionStats.totalDuration + (stats.duration.getD 0) := by
  have hget : seqGet state.exerciseSequence i =
      some (state.exerciseSequence.get ⟨i.toNat, hlt⟩) := by
    simp [seqGet, h0, List.getElem?_eq_getElem hlt]
  refine ⟨?_, fun j hj => ?_, ?_, ?_, ?_⟩
  · simp [workoutReducer, hget, List.getElem?_set_self, hlt,
      List.getElem?_eq_getElem hlt]
  · simp [workoutReducer, hget, List.getElem?_set_ne (by omega : i.toNat ≠ j)]
  · rfl
  · simp [workoutReducer, jsOrInt_eq_getD]
  · simp [workoutReducer, jsOrInt_eq_getD]

/-- Witness for C4: a two-item sequence, completing index 1; the frame
clause is instantiated at the untouched index 0. -/
theorem workoutReducer_completeExercise_witness :
    (0 : Int) ≤ 1 ∧
    Int.toNat 1 < (sampleState.exerciseSequence).length ∧
    (workoutReducer "t0" sampleState
        (.completeExercise 1 { repCount := some 8 })).exerciseSequence[1]? =
      some { sampleState.exerciseSequence.get ⟨1, by decide⟩ with
             completed := true, results := some { repCount := some 8 } } ∧
    (workoutReducer "t0" sampleState
        (.completeExercise 1 { repCount := some 8 })).exerciseSequence[0]? =
      sampleState.exerciseSequence[0]? ∧
    (workoutReducer "t0" sampleState
        (.completeExercise 1 { repCount := some 8 })).sessionStats.completedExercises =
      sampleState.sessionStats.completedExercises + 1 ∧
    (workoutReducer "t0" sampleState
        (.completeExercise 1 { repCount := some 8 })).sessionStats.totalReps =
      sampleState.sessionStats.totalReps + ((some (8 : Int)).getD 0) ∧
    (workoutReducer "t0" sampleState
        (.completeExercise 1 { repCount := some 8 })).sessionStats.totalDuration =
      sampleState.sessionStats.totalDuration + ((none : Option Int).getD 0) :=
  ⟨by decide, by decide,
    (workoutReducer_completeExercise "t0" sampleState 1 { repCount := some 8 }
      (by decide) (by decide)).1,
    (workoutReducer_completeExercise "t0" sampleState 1 { repCount := some 8 }
      (by decide) (by decide)).2.1 0 (by decide),
    (workoutReducer_completeExercise "t0" sampleState 1 { repCount := some 8 }
      (by decide) (by decide)).2.2.1,
    (workoutReducer_completeExercise "t0" sampleState 1 { repCount := some 8 }
      (by decide) (by decide)).2.2.2.1,
    (workoutReducer_completeExercise "t0" sampleState 1 { repCount := some 8 }
      (by decide) (by decide)).2.2.2.2⟩

/-- C10: a `COMPLETE_EXERCISE` whose index is out of range (negative —
including the initial `-1` — or at/beyond the sequence length) leaves the
sequence unchanged yet still bumps the session counters, so
`completedExercises` can exceed the number of items marked completed; and
`completeCurrentExercise` guards only against negative indices, so an
index at/beyond the length still dispatches and bumps the counters. -/
theorem completeExercise_outOfRange (now : String)
    (state : WorkoutState) (i : Int) (stats : Stats)
    (h : i < 0 ∨ state.exerciseSequence.length ≤ i.toNat) :
    workoutReducer now state (.completeExercise i stats) =
      { state with sessionStats :=
        { state.sessionStats with
          completedExercises := state.sessionStats.completedExercises + 1
          totalReps := state.sessionStats.totalReps + stats.repCount.getD 0
          totalDuration := state.sessionStats.totalDuration + stats.duration.getD 0 } } ∧
    (state.currentExerciseIndex < 0 →
      completeCurrentExercise now state stats = state) ∧
    (0 ≤ state.currentExerciseIndex →
      state.exerciseSequence.length ≤ state.currentExerciseIndex.toNat →
      (completeCurrentExercise now state stats).exerciseSequence =
        state.exerciseSequence ∧
      (completeCurrentExercise now state stats).sessionStats.completedExercises =
        state.sessionStats.completedExercises + 1) := by
  have hget : ∀ k : Int, (k < 0 ∨ state.exerciseSequence.length ≤ k.toNat) →
      seqGet state.exerciseSequence k = none := by
    intro k hk
    rcases hk with hk | hk
    · simp [seqGet, not_le.mpr hk, Int.not_le.mpr hk]
    · simp [seqGet, List.getElem?_eq_none hk]
  refine ⟨?_, fun hneg => ?_, fun hpos hlen => ?_⟩
  · simp [workoutReducer, hget i h, jsOrInt_eq_getD]
  · simp [completeCurrentExercise, Int.not_le.mpr hneg]
  · have := hget state.currentExerciseIndex (Or.inr hlen)
    simp [completeCurrentExercise, hpos, workoutReducer, this, jsOrInt_eq_getD]

/-- Witness for C10 at `overflowState`: index 2 equals the sequence
length, the wrapper still dispatches, and the counter reaches 3 while
only 2 items are marked completed. -/
theorem completeExercise_outOfRange_witness :
    ((2 : Int) < 0 ∨ overflowState.exerciseSequence.length ≤ Int.toNat 2) ∧
    (0 : Int) ≤ overflowState.currentExerciseIndex ∧
    overflowState.exerciseSequence.length ≤ overflowState.currentExerciseIndex.toNat ∧
    (completeCurrentExercise "t1" overflowState { repCount := some 5 }).exerciseSequence =
      overflowState.exerciseSequence ∧
    (completeCurrentExercise "t1" overflowState
        { repCount := some 5 }).sessionStats.completedExercises =
      overflowState.sessionStats.completedExercises + 1 :=
  ⟨Or.inr (by decide), by decide, by decide,
    ((completeExercise_outOfRange "t1" overflowState 2
        { repCount := some 5 } (Or.inr (by decide))).2.2 (by decide) (by decide)).1,
    ((completeExercise_outOfRange "t1" overflowState 2
        { repCount := some 5 } (Or.inr (by decide))).2.2 (by decide) (by decide)).2⟩

/-- C1 as stated is false at a body whose `error` field is present but
falsy: for `{"error": ""}` the claim's message would be `""`, but
`errorData.error || 'API request failed'` takes the fallback, so the
thrown error's message is `"API request failed"`. -/
theorem fetchApi_message_counterexample :
    ¬ ∀ (fetchImpl : String → FetchConfig → FetchOutcome) (endpoint : String)
        (options : FetchOptions) (response : FetchResponse) (body : JsVal)
        (err : JsError),
        fetchImpl (requestUrl endpoint) (buildConfig options) = .success response →
        response.ok = false → response.jsonResult = .ok body →
        (fetchApi fetchImpl endpoint options).1 = .error err →
        body.getField "error" ≠ .undef →
        err.message = (body.getField "error").toStr := by
  intro h
  have := h (fun _ _ => .success emptyErrorResponse) "exercise/start" {}
    emptyErrorResponse (.obj [("error", .str "")])
    (annotateError (httpError emptyErrorResponse) "exercise/start"
      (requestUrl "exercise/start") (buildConfig {}))
    rfl rfl rfl rfl (fun hc => JsVal.noConfusion hc)
  exact absurd this (by decide)

/-- C1, amended: every thrown error carries the endpoint and the request
(url and config); an HTTP-failure error additionally carries status,
statusText and the parsed body as data, and its message is the parsed
body's `error` field when that field is truthy, `'API request failed'`
otherwise — where a non-JSON body is replaced by `{ error: statusText }`,
so there the message is the status text when non-empty and
`'API request failed'` otherwise. -/
theorem fetchApi_error_fields (fetchImpl : String → FetchConfig → FetchOutcome)
    (endpoint : String) (options : FetchOptions) :
    (∀ e : JsError,
      fetchImpl (requestUrl endpoint) (buildConfig options) = .reject e →
      (fetchApi fetchImpl endpoint options).1 =
        .error { e with endpoint := some endpoint,
                        request := some (requestUrl endpoint, buildConfig options) }) ∧
    (∀ response : FetchResponse,
      fetchImpl (requestUrl endpoint) (buildConfig options) = .success response →
      response.ok = false →
      ∃ err : JsError, (fetchApi fetchImpl endpoint options).1 = .error err ∧
        err.status = some response.status ∧
        err.statusText = some response.statusText ∧
        err.data = some (errorDataOf response) ∧
        err.endpoint = some endpoint ∧
        err.request = some (requestUrl endpoint, buildConfig options) ∧
        (∀ body : JsVal, response.jsonResult = .ok body →
          errorDataOf response = body ∧
          err.message = (if (body.getField "error").truthy = true
            then (body.getField "error").toStr else "API request failed")) ∧
        (∀ u : Unit, response.jsonResult = .error u →
          errorDataOf response = .obj [("error", .str response.statusText)] ∧
          err.message = (if response.statusText.isEmpty = true
            then "API request failed" else response.statusText))) := by
  constructor
  · intro e he
    simp [fetchApi, he, annotateError]
  · intro response hresp hok
    refine ⟨annotateError (httpError response) endpoint (requestUrl endpoint)
      (buildConfig options), ?_, rfl, rfl, rfl, rfl, rfl, ?_, ?_⟩
    · simp [fetchApi, hresp, hok]
    · intro body hbody
      refine ⟨by simp [errorDataOf, hbody], ?_⟩
      simp [annotateError, httpError, errorMessage, errorDataOf, hbody]
    · intro u hbody
      refine ⟨by simp [errorDataOf, hbody], ?_⟩
      simp only [annotateError, httpError, errorMessage, errorDataOf, hbody]
      cases hst : response.statusText.isEmpty <;>
        simp [JsVal.getField, JsVal.truthy, JsVal.toStr, hst]

/-- Witness for the amended C1 at a concrete 404 response whose body
carries a truthy `error` field. -/
theorem fetchApi_error_fields_witness :
    ∃ err : JsError,
      (fetchApi (fun _ _ => .success badResponse) "exercise/data" {}).1 = .error err ∧
      err.status = some 404 ∧
      err.statusText = some "Not Found" ∧
      err.data = some (.obj [("error", .str "exercise not found")]) ∧
      err.endpoint = some "exercise/data" ∧
      err.message = "exercise not found" := by
  obtain ⟨err, h1, h2, h3, h4, h5, h6, h7, h8⟩ :=
    (fetchApi_error_fields (fun _ _ => .success badResponse)
      "exercise/data" {}).2 badResponse rfl rfl
  refine ⟨err, h1, h2, h3, ?_, h5, ?_⟩
  · rw [h4, (h7 _ rfl).1]
  · simpa using (h7 _ rfl).2

/-- C5: on an `ok` response, `fetchApi` resolves with null when the
status is 204 or the content-length header is `'0'`; otherwise with the
JSON-parsed body when the content-type contains `'application/json'`, and
with the raw body text when it does not. -/
theorem fetchApi_success (fetchImpl : String → FetchConfig → FetchOutcome)
    (endpoint : String) (options : FetchOptions) (response : FetchResponse)
    (hresp : fetchImpl (requestUrl endpoint) (buildConfig options) = .success response)
    (hok : response.ok = true) :
    ((response.status = 204 ∨ response.contentLength = some "0") →
      (fetchApi fetchImpl endpoint options).1 = .ok .nullResult) ∧
    (response.status ≠ 204 → response.contentLength ≠ some "0" →
      (∀ (ct : String) (body : JsVal), response.contentType = some ct →
        strIncludes ct "application/json" = true →
        response.jsonResult = .ok body →
        (fetchApi fetchImpl endpoint options).1 = .ok (.jsonResult body)) ∧
      ((match response.contentType with
        | some ct => strIncludes ct "application/json"
        | none => false) = false →
        (fetchApi fetchImpl endpoint options).1 = .ok (.textResult response.textBody))) := by
  constructor
  · intro hnull
    simp [fetchApi, hresp, hok, hnull]
  · intro h204 hlen
    have hcond : ¬ (response.status = 204 ∨ response.contentLength = some "0") := by
      tauto
    constructor
    · intro ct body hct hinc hjson
      simp [fetchApi, hresp, hok, hcond, hct, hinc, hjson]
    · intro hct
      simp [fetchApi, hresp, hok, hcond, hct]

/-- Witness for C5 at a concrete 200 JSON response. -/
theorem fetchApi_success_witness :
    jsonResponse.ok = true ∧
    jsonResponse.status ≠ 204 ∧
    jsonResponse.contentType = some "application/json; charset=utf-8" ∧
    strIncludes "application/json; charset=utf-8" "application/json" = true ∧
    (fetchApi (fun _ _ => .success jsonResponse) "workout/current" {}).1 =
      .ok (.jsonResult (.obj [("success", .boolean true)])) :=
  ⟨rfl, by decide, rfl, by decide,
    ((fetchApi_success (fun _ _ => .success jsonResponse) "workout/current" {}
        jsonResponse rfl rfl).2 (by decide) (by decide)).1
      "application/json; charset=utf-8" (.obj [("success", .boolean true)])
      rfl (by decide) rfl⟩

/-- Prepending a slash yields a string that starts with a slash. -/
theorem startsWithSlash_slash_append (e : String) :
    startsWithSlash ("/" ++ e) = true := by
  cases e with
  | mk data => rfl

/-- For a non-slash-starting endpoint of the form `base ++ t`, the
request URL keeps any prefix of `"/api/" ++ base`. -/
theorem requestUrl_append_prefix (base t : String)
    (h : startsWithSlash (base ++ t) = false) (p : String)
    (hp : p.data <+: ("/api/" ++ base).data) :
    p.data <+: (requestUrl (base ++ t)).data := by
  have hlit : ("/api" : String) ++ "/" = "/api/" := by decide
  have h1 : requestUrl (base ++ t) = ("/api/" ++ base) ++ t := by
    calc requestUrl (base ++ t) = "/api" ++ ("/" ++ (base ++ t)) := by
          simp [requestUrl, h, API_BASE_URL]
      _ = ("/api" ++ "/") ++ (base ++ t) := (String.append_assoc _ _ _).symm
      _ = "/api/" ++ (base ++ t) := by rw [hlit]
      _ = ("/api/" ++ base) ++ t := (String.append_assoc _ _ _).symm
  rw [h1, String.data_append]
  exact hp.trans (List.prefix_append _ _)

/-- C6 as stated is false: for an endpoint that already starts with a
slash, prepending another slash is not normalized away, so `fetchApi(e)`
and `fetchApi('/' + e)` request different URLs (`/api/status` versus
`/api//status`). -/
theorem requestUrl_doubleSlash_counterexample :
    ¬ ∀ e : String,
        ((fetchApi (fun _ _ => .reject { message := "network" }) e {}).2.map
          Prod.fst) =
        ((fetchApi (fun _ _ => .reject { message := "network" }) ("/" ++ e) {}).2.map
          Prod.fst) := by
  intro h
  exact absurd (h "/status") (by decide)

/-- C6, amended: the requested URL is `API_BASE_URL` with `/` and the
endpoint (a single leading slash is not doubled, so an endpoint with and
without a leading slash yield the same URL — but prepending a slash to
an endpoint that already has one is not normalized); under the default
configuration, every video-service and exercise-service request targets
a path under `/api/video/` or `/api/exercise/` respectively. -/
theorem requestUrl_normalization :
    (∀ e : String, startsWithSlash e = true →
      requestUrl e = API_BASE_URL ++ e) ∧
    (∀ e : String, startsWithSlash e = false →
      requestUrl e = API_BASE_URL ++ "/" ++ e ∧
      requestUrl e = requestUrl ("/" ++ e)) ∧
    (∀ e ∈ videoServiceEndpoints, "/api/video/".data <+: (requestUrl e).data) ∧
    "/api/video/".data <+: getVideoFeedUrl.data ∧
    (∀ e ∈ exerciseServiceEndpoints,
      "/api/exercise/".data <+: (requestUrl e).data) ∧
    (∀ exercise period : Option String,
      "/api/exercise/".data <+:
        (requestUrl (getCommonFeedbackEndpoint exercise period)).data) := by
  refine ⟨fun e he => by simp [requestUrl, he],
    fun e he => ⟨?_, ?_⟩, ?_, by decide, ?_, fun exercise period => ?_⟩
  · simp only [requestUrl, he, Bool.false_eq_true, if_false]
    rw [String.append_assoc]
  · simp [requestUrl, he, startsWithSlash_slash_append]
  · intro e he
    fin_cases he <;> decide
  · intro e he
    fin_cases he <;> decide
  · have hshape : getCommonFeedbackEndpoint exercise period =
        "exercise/common_feedback" ++
          (if (commonFeedbackQuery exercise period).isEmpty then ""
           else "?" ++ commonFeedbackQuery exercise period) := rfl
    rw [hshape]
    refine requestUrl_append_prefix _ _ ?_ _ (by decide)
    have hd : ("exercise/common_feedback" ++
        (if (commonFeedbackQuery exercise period).isEmpty then ""
         else "?" ++ commonFeedbackQuery exercise period)).data =
        'e' :: ("xercise/common_feedback".data ++
          (if (commonFeedbackQuery exercise period).isEmpty then ""
           else "?" ++ commonFeedbackQuery exercise period).data) := by
      rw [String.data_append,
        show "exercise/common_feedback".data = 'e' :: "xercise/common_feedback".data
          from by decide]
      rfl
    unfold startsWithSlash
    rw [hd]
    rfl

/-- Witness for the amended C6 at the concrete endpoint `video/start`. -/
theorem requestUrl_normalization_witness :
    startsWithSlash "video/start" = false ∧
    requestUrl "video/start" = API_BASE_URL ++ "/" ++ "video/start" ∧
    requestUrl "video/start" = requestUrl ("/" ++ "video/start") ∧
    "/api/video/".data <+: (requestUrl "video/start").data ∧
    "/api/exercise/".data <+:
      (requestUrl (getCommonFeedbackEndpoint (some "squat") (some "week"))).data :=
  ⟨by decide,
    (requestUrl_normalization.2.1 "video/start" (by decide)).1,
    (requestUrl_normalization.2.1 "video/start" (by decide)).2,
    requestUrl_normalization.2.2.1 "video/start" (by decide),
    requestUrl_normalization.2.2.2.2.2 (some "squat") (some "week")⟩

/-- C7: every call to `fetchApi` issues exactly one underlying fetch
request — the trace of requests is the singleton `(url, config)` pair on
every path, including all failure paths, so there is no retry. -/
theorem fetchApi_single_request (fetchImpl : String → FetchConfig → FetchOutcome)
    (endpoint : String) (options : FetchOptions) :
    (fetchApi fetchImpl endpoint options).2 =
      [(requestUrl endpoint, buildConfig options)] := by
  simp only [fetchApi]
  cases fetchImpl (requestUrl endpoint) (buildConfig options) with
  | reject e => rfl
  | success response =>
    repeat (first | rfl | split)

/-- C8: `ExerciseTracker`'s exercise-data query options set
`refetchInterval` to 500 milliseconds and `enabled` to whether an
exercise is active; under the library's interval semantics the query
polls exactly at 500 ms multiples while active and never polls while
inactive. -/
theorem exerciseData_polling (exerciseActive : Bool) (t : Nat) :
    (exerciseDataQueryOptions exerciseActive).refetchInterval = 500 ∧
    (exerciseDataQueryOptions exerciseActive).enabled = exerciseActive ∧
    pollsAt (exerciseDataQueryOptions exerciseActive) t =
      (exerciseActive && decide (t % 500 = 0)) := by
  refine ⟨rfl, rfl, ?_⟩
  cases exerciseActive <;> simp [pollsAt, exerciseDataQueryOptions]

end WorkoutApp
